import Mathlib

/-!
Shallow embedding of the query analysis and enrichment pipeline of
`ecommerce_agents/agents/query_agent.py` (class `UserQueryAgent`).

Conventions of the embedding:
* Python strings are Lean `String`s; character-level work uses `List Char`.
* The ambient current date (`datetime.now()`) is passed explicitly as
  `(year month : Nat)` parameters.
* Every call to the external text-completion service is passed explicitly as
  an `Except Unit <parsed-json-shape>` argument: `.ok j` models a successful
  call whose JSON body parsed to `j`, `.error ()` models the call (or the
  JSON parsing of its answer) raising an exception.
* A Python `dict` field that may be absent is an `Option`; Python truthiness
  of strings (where `""` and `None` are both falsy) is the `truthy` helper.
-/

namespace QueryAgent

/-! ## Python string primitives -/

/-- Characters counting as word characters for the regex `\b` word boundary
(ASCII model of Python `\w`). -/
def isWordChar (c : Char) : Bool := c.isAlpha || c.isDigit || c = '_'

/-- Python `str.lower()` on a character list (ASCII model). -/
def pyLower (s : List Char) : List Char := s.map Char.toLower

/-- Python `str.lower()` on a `String`. -/
def pyLowerS (s : String) : String := String.mk (pyLower s.data)

/-- Auxiliary for `pySplit`: `acc` holds the reversed current word. -/
def pySplitAux (acc : List Char) : List Char → List (List Char)
  | [] => if acc.isEmpty then [] else [acc.reverse]
  | c :: rest =>
    if c.isWhitespace then
      if acc.isEmpty then pySplitAux [] rest
      else acc.reverse :: pySplitAux [] rest
    else pySplitAux (c :: acc) rest

/-- Python `str.split()` with no argument: split on whitespace runs and drop
empty pieces. -/
def pySplit (s : List Char) : List (List Char) := pySplitAux [] s

/-- Python `str.isdigit()` (ASCII model): non-empty and all characters are
decimal digits. -/
def pyIsDigit (w : List Char) : Bool := !w.isEmpty && w.all Char.isDigit

/-- Whether `needle` is a literal prefix of `hay` (helper for `containsSub`). -/
def matchLitB : List Char → List Char → Bool
  | [], _ => true
  | _ :: _, [] => false
  | a :: as, c :: cs => a = c && matchLitB as cs

/-- Python substring containment `needle in hay`. -/
def containsSub (needle : List Char) : List Char → Bool
  | [] => needle.isEmpty
  | c :: rest => (matchLitB needle (c :: rest)) || containsSub needle rest

/-- Python `str.strip()`: remove leading and trailing whitespace. -/
def pyStrip (s : String) : String :=
  String.mk (((s.data.dropWhile Char.isWhitespace).reverse.dropWhile Char.isWhitespace).reverse)

/-- Python truthiness of an optional string value: `None` and `""` are falsy.
`truthy o = some s` exactly when the value is present and non-empty. -/
def truthy : Option String → Option String
  | some s => if s = "" then none else some s
  | none => none

/-! ## Decimal rendering of integers (Python `str(int)` / f-string `{year}`)

Fuel-based structural recursion (the fuel `n+1` always suffices), kept
structural so that concrete instances evaluate by `decide`/`rfl`. -/

/-- Core decimal digit accumulation, most significant digit first. -/
def natStrCore : Nat → Nat → List Char → List Char
  | 0, _, acc => acc
  | fuel + 1, n, acc =>
    if n < 10 then Nat.digitChar n :: acc
    else natStrCore fuel (n / 10) (Nat.digitChar (n % 10) :: acc)

/-- Python `str(n)` for a natural number `n`. -/
def natStr (n : Nat) : String := String.mk (natStrCore (n + 1) n [])

/-! ## Seasons (`get_current_season`, `get_upcoming_season`) -/

/-- Model of `UserQueryAgent.get_current_season`, as a function of the current month. -/
def get_current_season (month : Nat) : String :=
  if month = 12 ∨ month = 1 ∨ month = 2 then "Winter"
  else if month = 3 ∨ month = 4 ∨ month = 5 then "Spring"
  else if month = 6 ∨ month = 7 ∨ month = 8 then "Summer"
  else "Fall"

/-- The fixed season cycle `["Winter", "Spring", "Summer", "Fall"]`. -/
def seasonsCycle : List String := ["Winter", "Spring", "Summer", "Fall"]

/-- Model of `UserQueryAgent.get_upcoming_season`: cyclic successor of the current
season in `seasonsCycle` (`seasons[(current_idx + 1) % 4]`). -/
def get_upcoming_season (month : Nat) : String :=
  let current_season := get_current_season month
  let current_idx := seasonsCycle.indexOf current_season
  seasonsCycle.getD ((current_idx + 1) % 4) ""

/-! ## `validate_temporal` (purely local, no service call) -/

/-- The lower-cased season names used by `validate_temporal`. -/
def seasonWords : List (List Char) :=
  ["spring".data, "summer".data, "fall".data, "winter".data]

/-- The rejection message of `validate_temporal`. -/
def temporalRejectMsg : String :=
  "Please provide a season (Spring, Summer, Fall, Winter) with an optional year"

/-- Model of `UserQueryAgent.validate_temporal`, with the ambient current date passed
as `year`/`month`. -/
def validate_temporal (year month : Nat) (temporal : String) : Bool × String :=
  if temporal = "" then (true, "")
  else
    let low := pyLower temporal.data
    if low = "next season".data ∨ low = "upcoming season".data ∨ low = "future".data then
      (true, get_upcoming_season month ++ " " ++ natStr year)
    else
      let words := pySplit low
      let has_season := seasonWords.any (fun sn => words.contains sn)
      let has_year := words.any (fun w => pyIsDigit w && w.length = 4)
      if has_season && has_year then (true, temporal)
      else if has_season then (true, temporal ++ " " ++ natStr year)
      else (false, temporalRejectMsg)

/-! ## The regex fragment used by the pattern tables

Every pattern in `TEMPORAL_PATTERNS` / `LOCATION_PATTERNS` has the shape
`\b(w1|w2|...)\b` over literal lower-case words (the character class
`q[1-4]` of the season pattern is expanded into its four literal
alternatives, and `20\d{2}` of the year pattern gets a dedicated matcher),
except the relative pattern which carries the optional greedy suffix
`(?:\s+season)?` before its trailing `\b`.  Matching is modelled with the
Python `re` semantics: ordered alternation with backtracking, and
`finditer` scanning left to right producing non-overlapping matches. -/

/-- A pattern of the library. -/
inductive Pat where
  /-- A word-alternatives pattern `\b(w1|w2|...)\b`, with the optional `(?:\s+season)?` suffix before
  the trailing `\b` when `optSeason` is true. -/
  | wordAlts (alts : List (List Char)) (optSeason : Bool)
  /-- The year pattern `\b(20\d{2})\b`. -/
  | year
deriving DecidableEq

/-- Match the literal `a` at the head of `s`, returning the rest of `s`. -/
def matchLit : List Char → List Char → Option (List Char)
  | [], s => some s
  | _ :: _, [] => none
  | a :: as, c :: cs => if a = c then matchLit as cs else none

/-- The `\b` word boundary placed right after a match ending in a word
character: end of input or a non-word character. -/
def boundaryAfter : List Char → Bool
  | [] => true
  | c :: _ => !isWordChar c

/-- Greedy `\s+season`: one or more whitespace characters, then the literal
`season`.  Returns the consumed characters and the rest. -/
def seasonSuffix (s : List Char) : Option (List Char × List Char) :=
  let ws := s.takeWhile Char.isWhitespace
  if ws.isEmpty then none
  else
    match matchLit "season".data (s.dropWhile Char.isWhitespace) with
    | some rest => some (ws ++ "season".data, rest)
    | none => none

/-- Try one alternative `a` at the current position, including the optional
`(?:\s+season)?` (tried greedily first, with backtracking) and the trailing
`\b`.  Returns the matched text and the rest of the input. -/
def tryAlt (optSeason : Bool) (s : List Char) (a : List Char) :
    Option (List Char × List Char) :=
  match matchLit a s with
  | none => none
  | some rest =>
    if optSeason then
      match seasonSuffix rest with
      | some (sfx, rest2) =>
        if boundaryAfter rest2 then some (a ++ sfx, rest2)
        else if boundaryAfter rest then some (a, rest)
        else none
      | none => if boundaryAfter rest then some (a, rest) else none
    else if boundaryAfter rest then some (a, rest) else none

/-- Match a pattern at the current position (the leading `\b` is checked by
the scanner).  Alternatives are tried in declared order. -/
def matchAt (p : Pat) (s : List Char) : Option (List Char × List Char) :=
  match p with
  | .wordAlts alts optSeason => alts.findSome? (tryAlt optSeason s)
  | .year =>
    match s with
    | '2' :: '0' :: c1 :: c2 :: rest =>
      if c1.isDigit && c2.isDigit && boundaryAfter rest then
        some (['2', '0', c1, c2], rest)
      else none
    | _ => none

/-- Whether the last character of a match is a word character (used to carry
the `\b` state across a match; all matches of the library's patterns end in
a word character). -/
def lastIsWordChar (m : List Char) : Bool :=
  match m.reverse with
  | [] => false
  | c :: _ => isWordChar c

/-- The `re.finditer` scan: at each position whose preceding character is not a
word character (the leading `\b`), try the pattern; on a match, emit it and
resume after it.  `fuel` bounds the recursion; `s.length` always suffices
because every step consumes at least one character. -/
def findIterAux (p : Pat) : Nat → Bool → List Char → List (List Char)
  | 0, _, _ => []
  | _ + 1, _, [] => []
  | fuel + 1, prevWord, c :: rest =>
    if prevWord then findIterAux p fuel (isWordChar c) rest
    else
      match matchAt p (c :: rest) with
      | some (m, rest2) => m :: findIterAux p fuel (lastIsWordChar m) rest2
      | none => findIterAux p fuel (isWordChar c) rest

/-- All matches of `p` in `s`, in order (`re.finditer`). -/
def findIter (p : Pat) (s : List Char) : List (List Char) :=
  findIterAux p s.length false s

/-! ## The pattern tables (`TEMPORAL_PATTERNS`, `LOCATION_PATTERNS`) -/

/-- Model of `UserQueryAgent.TEMPORAL_PATTERNS`, in declared order. -/
def TEMPORAL_PATTERNS : List (String × Pat) := [
  ("year", Pat.year),
  ("season", Pat.wordAlts
    ["spring".data, "summer".data, "fall".data, "winter".data,
     "q1".data, "q2".data, "q3".data, "q4".data] false),
  ("relative", Pat.wordAlts
    ["current".data, "upcoming".data, "next".data, "future".data,
     "past".data, "previous".data, "recent".data, "latest".data] true),
  ("month", Pat.wordAlts
    ["january".data, "february".data, "march".data, "april".data,
     "may".data, "june".data, "july".data, "august".data,
     "september".data, "october".data, "november".data, "december".data] false),
  ("period", Pat.wordAlts
    ["daily".data, "weekly".data, "monthly".data, "quarterly".data,
     "yearly".data, "annual".data] false)]

/-- The `'global'` entry of `LOCATION_PATTERNS`:
`\b(global|worldwide|international)\b`. -/
def globalPat : Pat :=
  Pat.wordAlts ["global".data, "worldwide".data, "international".data] false

/-- The `'continent'` entry of `LOCATION_PATTERNS`:
`\b(europe|asia|africa|north america|south america|australia)\b`. -/
def continentPat : Pat :=
  Pat.wordAlts
    ["europe".data, "asia".data, "africa".data, "north america".data,
     "south america".data, "australia".data] false

/-- Model of `UserQueryAgent.LOCATION_PATTERNS`, in declared order. -/
def LOCATION_PATTERNS : List (String × Pat) :=
  [("global", globalPat), ("continent", continentPat)]

/-- The `temporal_matches` list of `analyze_query_terms`: for each pattern in
declared order, all its matches in the (lower-cased) query, tagged with the
pattern type. -/
def temporalMatches (lowq : List Char) : List (String × List Char) :=
  (TEMPORAL_PATTERNS.map (fun tp => (findIter tp.2 lowq).map (fun v => (tp.1, v)))).flatten

/-- The `location_matches` list of `analyze_query_terms`. -/
def locationMatches (lowq : List Char) : List (String × List Char) :=
  (LOCATION_PATTERNS.map (fun tp => (findIter tp.2 lowq).map (fun v => (tp.1, v)))).flatten

/-- Python `list.sort(key=lambda x: len(x['value']), reverse=True)`: a stable
descending sort by length of the matched value (Python's sort is stable, and
`reverse=True` sorts descending while keeping equal elements in their
original order; `List.insertionSort` with this relation does exactly that). -/
def pySortLenDesc (ms : List (String × List Char)) : List (String × List Char) :=
  List.insertionSort (fun a b => b.2.length ≤ a.2.length) ms

/-- The temporal context `analyze_query_terms` extracts from the lower-cased
query: the value of the head of the sorted match list, if any. -/
def extractTemporal (lowq : List Char) : Option (List Char) :=
  ((pySortLenDesc (temporalMatches lowq)).head?).map (fun x => x.2)

/-- The geographical context `analyze_query_terms` extracts from the
lower-cased query: the value of `location_matches[0]`, if any. -/
def extractLocation (lowq : List Char) : Option (List Char) :=
  ((locationMatches lowq).head?).map (fun x => x.2)

/-! ## `analyze_query_terms` -/

/-- The parsed JSON answer of the extraction prompt (step 1 of
`analyze_query_terms`); fields may be absent or empty. -/
structure Analysis where
  focus_term : Option String := none
  objective : Option String := none
  scope : Option String := none
  unmatched_terms : List String := []
deriving DecidableEq

/-- The `validation` block added on a first attempt with missing parts. -/
structure ValidationBlock where
  unmatched_terms : List String
  missing_components : List String
  attempt : Nat
deriving DecidableEq

/-- The components dictionary returned by `analyze_query_terms`.  A key that
the code never inserts is `none` (the code only ever inserts truthy string
values, so presence of a key coincides with `Option.isSome`). -/
structure Components where
  focus_term : Option String := none
  objective : Option String := none
  scope : Option String := none
  temporal_context : Option String := none
  geographical_context : Option String := none
  validation : Option ValidationBlock := none
deriving DecidableEq

/-- Model of `UserQueryAgent.STANDARD_SCOPE_AREAS`. -/
def STANDARD_SCOPE_AREAS : List String :=
  ["functionality", "aesthetic_appeal", "sustainability", "technology_integration",
   "health_wellness", "affordability", "seasonality", "exclusivity",
   "cultural_alignment", "innovation"]

/-- The query text actually analyzed: `previous_focus` is prepended when it
is truthy and the query does not already contain an obvious product keyword
(substring test). -/
def effectiveQuery (query : String) (previous_focus : Option String) : String :=
  match truthy previous_focus with
  | some pf =>
    if ["shoes", "clothing", "apparel"].any
        (fun t => containsSub t.data (pyLower query.data)) then query
    else pf ++ " " ++ query
  | none => query

/-- The human-readable names of missing required components, in the order
the code checks them. -/
def missingComponents (c : Components) : List String :=
  (if c.focus_term = none then ["product or topic"] else []) ++
  (if c.objective = none then
    ["research objective (trends/demand/performance/comparison)"] else []) ++
  (if c.scope = none then
    ["analysis areas (suggested: " ++
      String.intercalate ", " (STANDARD_SCOPE_AREAS.take 5) ++ ")"] else []) ++
  (if c.temporal_context = none then
    ["time reference (e.g., current, next season)"] else []) ++
  (if c.geographical_context = none then
    ["location reference (e.g., global, Europe)"] else [])

/-- Model of `UserQueryAgent.analyze_query_terms`.  `analysisResp` is the outcome of
the extraction completion call (step 1); `none` models the call raising, in
which case the surrounding `except` returns the empty dictionary.  The
`validate_objective`/`validate_scope` calls of step 2 return a 2-tuple,
which is always truthy in Python, so an extracted truthy objective/scope is
always kept. -/
def analyze_query_terms (analysisResp : Option Analysis) (query : String)
    (attempt : Nat) (previous_focus : Option String) : Components :=
  let q := effectiveQuery query previous_focus
  match analysisResp with
  | none => {}
  | some analysis =>
    let lowq := pyLower q.data
    let comps : Components := {
      focus_term := (truthy analysis.focus_term).map pyLowerS
      objective := (truthy analysis.objective).map pyLowerS
      scope := (truthy analysis.scope).map pyLowerS
      temporal_context := (extractTemporal lowq).map String.mk
      geographical_context := (extractLocation lowq).map String.mk }
    if attempt = 1 ∧
        (missingComponents comps ≠ [] ∨ analysis.unmatched_terms ≠ []) then
      { comps with validation := some {
          unmatched_terms := analysis.unmatched_terms
          missing_components := missingComponents comps
          attempt := attempt } }
    else if 1 < attempt then
      { comps with
        objective := if comps.objective = none then some "trends" else comps.objective
        geographical_context :=
          if comps.geographical_context = none then some "global"
          else comps.geographical_context
        temporal_context :=
          if comps.temporal_context = none then some "current"
          else comps.temporal_context }
    else comps

/-! ## Service-backed validators (`validate_objective`, `validate_scope`) -/

/-- The parsed JSON answer of a validation prompt.  `is_valid` is `none`
when the key is absent (accessing it raises `KeyError`, caught by the
surrounding `except`); `suggestion` is read with `.get(..., "")`. -/
structure ValidationJson where
  is_valid : Option Bool := none
  suggestion : Option String := none
deriving DecidableEq

/-- Shared body of `validate_objective` / `validate_scope` /
`validate_geographical`: return `(result["is_valid"], result.get("suggestion", ""))`,
and `(True, "")` when the service call (or the key access) raises. -/
def serviceValidate (svc : Except Unit ValidationJson) : Bool × String :=
  match svc with
  | .error _ => (true, "")
  | .ok j =>
    match j.is_valid with
    | none => (true, "")
    | some b => (b, j.suggestion.getD "")

/-- Model of `UserQueryAgent.validate_objective` (the objective string only feeds the
prompt; the outcome of the completion call is `svc`). -/
def validate_objective (_objective : String) (svc : Except Unit ValidationJson) :
    Bool × String :=
  serviceValidate svc

/-- Model of `UserQueryAgent.validate_scope`. -/
def validate_scope (_scope : String) (svc : Except Unit ValidationJson) :
    Bool × String :=
  serviceValidate svc

/-! ## `get_product_category` and `enrich_query_data` -/

/-- The parsed JSON answer of the product-category prompt
(`result.get("category", "general")`). -/
structure CatJson where
  category : Option String := none
deriving DecidableEq

/-- Model of `UserQueryAgent.get_product_category`: the category of the completion
answer, lower-cased, with `"general"` as the default for a missing key and
as the fallback when the call raises. -/
def get_product_category (_focus_term : String) (svc : Except Unit CatJson) : String :=
  match svc with
  | .error _ => "general"
  | .ok j => pyLowerS (j.category.getD "general")

/-- Model of `UserQueryAgent.OBJECTIVE_TERMS`. -/
def OBJECTIVE_TERMS : List (String × List String) := [
  ("trends", ["pattern", "movement", "direction", "shift", "evolution"]),
  ("demand", ["consumption", "need", "requirement", "market interest", "uptake"]),
  ("performance", ["results", "achievement", "outcome", "track record", "effectiveness"]),
  ("comparison", ["analysis", "evaluation", "assessment", "benchmark", "contrast"])]

/-- The lower-case continent names recognized by `enrich_query_data`. -/
def continentNames : List String :=
  ["europe", "asia", "africa", "north america", "south america", "australia"]

/-- The season-to-month map used for both `next_season_month` and
`past_season_month` (the final catch-all is unreachable: the argument is
always one of the four seasons). -/
def seasonMonth (season : String) : String :=
  if season = "Spring" then "March"
  else if season = "Summer" then "June"
  else if season = "Fall" then "September"
  else if season = "Winter" then "December"
  else ""

/-- The `past_season_map` of `enrich_query_data` (same unreachable
catch-all). -/
def pastSeasonMap (season : String) : String :=
  if season = "Spring" then "Winter"
  else if season = "Summer" then "Spring"
  else if season = "Fall" then "Summer"
  else if season = "Winter" then "Fall"
  else ""

/-- The parsed JSON answer of the enrichment prompt.  The generator only
ever reads these keys with `.get(key, [])`, so each field is modelled as a
plain list (an absent key behaves as `[]`). -/
structure EnrichedJson where
  objective : List String := []
  focus : List String := []
  scope : List String := []
  location : List String := []
  temporal : List String := []
deriving DecidableEq

/-- The `metadata` dictionary of the enriched data.  The inner
`"temporal"` dictionary holds at most the `"duration"` key, so it is
modelled as `temporal_duration : Option String` (`none` is the empty
dictionary). -/
structure Metadata where
  location_terms : List String
  temporal_terms : List String
  temporal_duration : Option String
  category : String
deriving DecidableEq

/-- The enriched-data dictionary returned by `enrich_query_data`. -/
structure EnrichResult where
  original : Components
  enriched : EnrichedJson
  metadata : Metadata
deriving DecidableEq

/-- Model of `UserQueryAgent.enrich_query_data`.  `catSvc` is the completion call of
`get_product_category`; `enrichSvc` is the enrichment completion call (when
it raises, the surrounding `except` makes the whole function return
`None`).  `query_components.get("temporal_context", {})` defaults to a
dictionary, which fails the `isinstance(temporal, str)` test, so
`temporal_context = none` models the non-string default. -/
def enrich_query_data (year month : Nat) (catSvc : Except Unit CatJson)
    (enrichSvc : Except Unit EnrichedJson) (query_components : Option Components) :
    Option EnrichResult :=
  match query_components with
  | none => none
  | some qc =>
    match truthy qc.focus_term with
    | none => none
    | some focus =>
      let objective := qc.objective.getD "trends"
      let temporal : Option String := qc.temporal_context
      let location := qc.geographical_context.getD "global"
      let category := get_product_category focus catSvc
      let location_terms : List String :=
        if pyLowerS location = "global" then ["Europe", "North America", "Asia"]
        else if continentNames.contains (pyLowerS location) then [location]
        else []
      let tt : List String × Option String :=
        match temporal with
        | some t =>
          let current_year := natStr year
          if containsSub "next season".data (pyLower t.data) then
            let next_season := get_upcoming_season month
            let next_season_month := seasonMonth next_season
            let next_year := natStr (year + 1)
            ([next_season ++ " " ++ next_year, next_season_month ++ " " ++ next_year],
             some "12 months")
          else if containsSub "past season".data (pyLower t.data) then
            let current_season := get_current_season month
            let past_season := pastSeasonMap current_season
            let past_season_month := seasonMonth past_season
            ([past_season ++ " " ++ current_year,
              past_season_month ++ " " ++ current_year], some "12 months")
          else ([t], some "12 months")
        | none => ([], none)
      let metadata : Metadata := {
        location_terms := location_terms
        temporal_terms := tt.1
        temporal_duration := tt.2
        category := category }
      match enrichSvc with
      | .error _ => none
      | .ok enrichedRaw =>
        let enriched :=
          match OBJECTIVE_TERMS.lookup (pyLowerS objective) with
          | some syns => { enrichedRaw with objective := [syns.headD ""] }
          | none => enrichedRaw
        some { original := qc, enriched := enriched, metadata := metadata }

/-! ## `generate_search_queries` -/

/-- The parsed JSON answer of the semantic-query prompt
(`.get("queries", [])`). -/
structure SemJson where
  queries : Option (List String) := none
deriving DecidableEq

/-- One keyword query with its metadata. -/
structure KeywordQuery where
  query : String
  location : List String
  category : String
  temporal_duration : Option String
deriving DecidableEq

/-- The search-query bundle. -/
structure QueryBundle where
  keyword_queries : List KeywordQuery
  semantic_queries : List String
deriving DecidableEq

/-- The empty bundle `{"keyword_queries": [], "semantic_queries": []}`. -/
def emptyBundle : QueryBundle := { keyword_queries := [], semantic_queries := [] }

/-- Model of `UserQueryAgent.generate_search_queries`.  `svc` is the semantic-query
completion call.  Any exception inside the `try` block — the completion
call raising, or the `original["focus_term"]` key access in the prompt
construction raising `KeyError` — is caught by the `except`, which returns
the empty bundle (discarding the keyword queries built so far). -/
def generate_search_queries (svc : Except Unit SemJson)
    (enriched_data : Option EnrichResult) : QueryBundle :=
  match enriched_data with
  | none => emptyBundle
  | some ed =>
    let original := ed.original
    let metadata := ed.metadata
    let focus := original.focus_term.getD ""
    let objective := original.objective.getD "trends"
    let geo_context := original.geographical_context.getD "global"
    let temporal := metadata.temporal_duration
    let scope := original.scope.getD ""
    let temporal_terms := metadata.temporal_terms
    let mkEntry : String → KeywordQuery := fun q => {
      query := q
      location := metadata.location_terms
      category := metadata.category
      temporal_duration := temporal }
    let query_parts : List String :=
      [focus, objective]
        ++ (if geo_context ≠ "" ∧ pyLowerS geo_context ≠ "global" then [geo_context] else [])
        ++ (match temporal_terms with
            | t :: _ => if t ≠ "" then [t] else []
            | [] => [])
        ++ (if scope ≠ "" then [scope] else [])
    let q1 := pyStrip (String.intercalate " " query_parts)
    let kqs := [mkEntry q1]
    let base_query := focus ++ " " ++ objective
    let kqs := if base_query ≠ q1 then kqs ++ [mkEntry base_query] else kqs
    let kqs :=
      if geo_context ≠ "" ∧ pyLowerS geo_context ≠ "global" then
        kqs ++ [mkEntry (focus ++ " " ++ objective ++ " " ++ geo_context)]
      else kqs
    let kqs :=
      match temporal_terms with
      | t :: _ =>
        if t ≠ "" then kqs ++ [mkEntry (focus ++ " " ++ objective ++ " " ++ t)] else kqs
      | [] => kqs
    let kqs := if scope ≠ "" then kqs ++ [mkEntry (focus ++ " " ++ objective ++ " " ++ scope)] else kqs
    match original.focus_term with
    | none => emptyBundle
    | some _ =>
      match svc with
      | .error _ => emptyBundle
      | .ok j => { keyword_queries := kqs, semantic_queries := j.queries.getD [] }

/-! ## Specification-side selection rule for temporal matches -/

/-- The selection rule the specification states for temporal matches: the
first element, in declared-pattern order and then position order, whose
matched value has maximal length (so the longest matched substring wins and
ties go to the earliest pattern in declared order).  To be compared with
the code-side `extractTemporal`, which sorts and takes the head. -/
def firstLongest : List (String × List Char) → Option (String × List Char)
  | [] => none
  | x :: xs =>
    match firstLongest xs with
    | none => some x
    | some m => some (if x.2.length < m.2.length then m else x)

/-! ## Projection helpers used in claim statements -/

/-- The `metadata.category` of an enrichment result. -/
def metaCategory (r : EnrichResult) : String := r.metadata.category

/-- The `metadata.location_terms` of an enrichment result. -/
def metaLocationTerms (r : EnrichResult) : List String := r.metadata.location_terms

/-- The `metadata.temporal_terms` of an enrichment result. -/
def metaTemporalTerms (r : EnrichResult) : List String := r.metadata.temporal_terms

/-! ## Concrete sample inputs for concrete evaluations -/

/-- A concrete component set: `focus "shoes"`, objective `"trends"`,
temporal `"winter 2025"`, geography `"global"`. -/
def sampleComponents : Components :=
  { focus_term := some "shoes", objective := some "trends",
    temporal_context := some "winter 2025", geographical_context := some "global" }

/-- A concrete component set whose geography is `"france"` (neither
`"global"` nor a continent). -/
def franceComponents : Components :=
  { focus_term := some "shoes", geographical_context := some "france" }

/-- A concrete parsed enrichment answer. -/
def sampleEnrichedJson : EnrichedJson := { objective := ["x"], focus := ["a", "b"] }

/-- A concrete component set whose temporal context is `"next season"`. -/
def nextSeasonComponents : Components :=
  { focus_term := some "shoes", temporal_context := some "next season" }

end QueryAgent

namespace QueryAgent

/-! # Claims -/

/-- Claim C1 (counterexample).  The claim says that when the semantic-query
completion call fails inside `generate_search_queries`, the returned bundle
still contains all locally computed keyword queries and only
`semantic_queries` is empty.  On the concrete enriched data built from
`sampleComponents` the keyword queries are non-empty when the call
succeeds, yet when the call fails the function's `except` handler returns
the fully empty bundle — the locally computed keyword queries are
discarded, refuting the claim at this input. -/
theorem C1_counterexample :
    generate_search_queries (Except.error ())
      (enrich_query_data 2025 4 (Except.ok { category := some "footwear" })
        (Except.ok sampleEnrichedJson) (some sampleComponents)) = emptyBundle ∧
    (generate_search_queries (Except.ok { queries := some [] })
      (enrich_query_data 2025 4 (Except.ok { category := some "footwear" })
        (Except.ok sampleEnrichedJson) (some sampleComponents))).keyword_queries ≠ [] := by
  constructor
  · rfl
  · decide

/-- Claim C1 (amended).  If the text-completion call that produces the
semantic queries fails inside `generate_search_queries`, the function
returns the empty bundle: both `keyword_queries` and `semantic_queries`
are empty lists (the `except` handler discards the locally computed
keyword queries). -/
theorem C1_generation_failure_empty_bundle (enriched_data : Option EnrichResult) :
    generate_search_queries (Except.error ()) enriched_data = emptyBundle := by
  rcases enriched_data with _ | ed
  · rfl
  · obtain ⟨orig, enr, md⟩ := ed
    obtain ⟨ft, o, sc, tc, gc, v⟩ := orig
    cases ft <;> rfl

/-- Claim C2 (counterexample).  The claim says a failure of any individual
enrichment sub-call (category lookup or synonyms completion) makes
`enrich_query_data` fall back to safe defaults and still return an
enriched-data result.  For the synonyms completion call this is false: on
a concrete component set with a non-empty focus term, a failing synonyms
call makes the whole function return `none`. -/
theorem C2_counterexample :
    enrich_query_data 2025 4 (Except.ok { category := some "footwear" })
      (Except.error ()) (some sampleComponents) = none := by
  rfl

/-- Claim C2 (amended).  A failure of the category lookup falls back to
`category = "general"` and still yields an enriched-data result, but a
failure of the synonyms completion call aborts the whole enrichment:
`enrich_query_data` returns `none`. -/
theorem C2_subcall_failures (year month : Nat) (qc : Components) (f : String)
    (catSvc : Except Unit CatJson) (j : EnrichedJson)
    (hf : truthy qc.focus_term = some f) :
    enrich_query_data year month catSvc (Except.error ()) (some qc) = none ∧
    (enrich_query_data year month (Except.error ()) (Except.ok j) (some qc)).isSome = true ∧
    (enrich_query_data year month (Except.error ()) (Except.ok j) (some qc)).map metaCategory =
      some "general" := by
  refine ⟨?_, ?_, ?_⟩ <;> simp only [enrich_query_data, hf] <;> rfl

/-- Claim C3 (counterexample).  The claim says that for every
`geographical_context` other than `"global"`, the supplied location is
passed through as the sole element of `metadata.location_terms`.  With
geography `"france"` (not a continent of the recognized list), enrichment
succeeds but `location_terms` is `[]`, not `["france"]`. -/
theorem C3_counterexample :
    (enrich_query_data 2025 4 (Except.ok { category := some "footwear" })
      (Except.ok sampleEnrichedJson) (some franceComponents)).map metaLocationTerms =
      some [] ∧
    (enrich_query_data 2025 4 (Except.ok { category := some "footwear" })
      (Except.ok sampleEnrichedJson) (some franceComponents)).map metaLocationTerms ≠
      some ["france"] := by
  constructor
  · rfl
  · decide

/-- Claim C3 (amended).  In `enrich_query_data`, when the geographical
context equals `"global"` case-insensitively, `metadata.location_terms` is
exactly `["Europe", "North America", "Asia"]`; when it is one of the six
recognized continent names case-insensitively, the supplied location is
passed through as the sole element; for every other value,
`location_terms` is empty.  In all cases the literal string `"global"`
never occurs in `location_terms`. -/
theorem C3_location_terms (year month : Nat) (catSvc : Except Unit CatJson)
    (j : EnrichedJson) (qc : Components) (f loc : String)
    (hf : truthy qc.focus_term = some f)
    (hloc : qc.geographical_context.getD "global" = loc) :
    (enrich_query_data year month catSvc (Except.ok j) (some qc)).map metaLocationTerms =
      some (if pyLowerS loc = "global" then ["Europe", "North America", "Asia"]
            else if continentNames.contains (pyLowerS loc) then [loc]
            else []) ∧
    "global" ∉ ((enrich_query_data year month catSvc (Except.ok j) (some qc)).map
      metaLocationTerms).getD [] := by
  subst hloc
  have hmain : (enrich_query_data year month catSvc (Except.ok j) (some qc)).map
      metaLocationTerms =
      some (if pyLowerS (qc.geographical_context.getD "global") = "global" then
              ["Europe", "North America", "Asia"]
            else if continentNames.contains
                (pyLowerS (qc.geographical_context.getD "global")) then
              [qc.geographical_context.getD "global"]
            else []) := by
    simp only [enrich_query_data, hf, Option.map_some', metaLocationTerms]
  refine ⟨hmain, ?_⟩
  rw [hmain, Option.getD_some]
  split
  · decide
  · split
    · rename_i h1 h2
      intro hm
      rw [List.mem_singleton] at hm
      rw [← hm] at h1
      exact h1 (by decide)
    · simp

/-- Claim C4 (confirmed).  For objective and scope validation, a failure of
the text-completion service call makes the validator return
`(is_valid = true, suggestion = "")` — it fails open instead of blocking
the pipeline. -/
theorem C4_validators_fail_open (objective scope : String) :
    validate_objective objective (Except.error ()) = (true, "") ∧
    validate_scope scope (Except.error ()) = (true, "") :=
  ⟨rfl, rfl⟩

/-- Helper: the `scope` field of the analysis result is exactly the
lower-cased truthy scope of the completion answer at every attempt — none
of the branches of `analyze_query_terms` touches it. -/
theorem analyze_scope_field (a : Analysis) (query : String) (attempt : Nat)
    (pf : Option String) :
    (analyze_query_terms (some a) query attempt pf).scope =
      (truthy a.scope).map pyLowerS := by
  simp only [analyze_query_terms]
  split
  · rfl
  · split <;> rfl

/-- Helper: when the location scan finds a match, every branch of
`analyze_query_terms` reports it unchanged as `geographical_context`. -/
theorem analyze_geo_field (a : Analysis) (query : String) (attempt : Nat)
    (pf : Option String) (v : List Char)
    (hv : extractLocation (pyLower (effectiveQuery query pf).data) = some v) :
    (analyze_query_terms (some a) query attempt pf).geographical_context =
      some (String.mk v) := by
  simp only [analyze_query_terms, hv, Option.map_some']
  split
  · rfl
  · split
    · simp
    · rfl

/-- Claim C5 (confirmed).  On any attempt greater than 1,
`analyze_query_terms` fills a missing objective with `"trends"`, a missing
geographical context with `"global"` and a missing temporal context with
`"current"`, while the scope is never defaulted at any attempt (`attempt2`
is arbitrary): it stays absent when the completion answer supplied no
truthy scope. -/
theorem C5_attempt_defaults (a : Analysis) (query : String)
    (attempt attempt2 : Nat) (previous_focus : Option String)
    (hatt : 1 < attempt) :
    (truthy a.objective = none →
      (analyze_query_terms (some a) query attempt previous_focus).objective =
        some "trends") ∧
    (extractLocation (pyLower (effectiveQuery query previous_focus).data) = none →
      (analyze_query_terms (some a) query attempt previous_focus).geographical_context =
        some "global") ∧
    (extractTemporal (pyLower (effectiveQuery query previous_focus).data) = none →
      (analyze_query_terms (some a) query attempt previous_focus).temporal_context =
        some "current") ∧
    (truthy a.scope = none →
      (analyze_query_terms (some a) query attempt previous_focus).scope = none ∧
      (analyze_query_terms (some a) query attempt2 previous_focus).scope = none) := by
  have hne1 : ¬(attempt = 1) := by omega
  refine ⟨?_, ?_, ?_, ?_⟩
  · intro hobj
    simp only [analyze_query_terms, hne1, false_and, if_false, hatt, if_true, hobj,
      Option.map_none']
  · intro hgeo
    simp only [analyze_query_terms, hne1, false_and, if_false, hatt, if_true, hgeo,
      Option.map_none']
  · intro htmp
    simp only [analyze_query_terms, hne1, false_and, if_false, hatt, if_true, htmp,
      Option.map_none']
  · intro hsc
    constructor <;> rw [analyze_scope_field, hsc] <;> rfl

/-- Claim C10 (confirmed).  The geographic extraction of
`analyze_query_terms` takes the first match in pattern-declaration order:
whenever the `'global'` pattern (`global|worldwide|international`) matches
anywhere in the lower-cased query — its first match being `v` — that match
becomes `geographical_context`, regardless of any (possibly earlier)
continent-pattern match in the query text. -/
theorem C10_global_pattern_precedence (a : Analysis) (query : String) (attempt : Nat)
    (v : List Char)
    (hg : (findIter globalPat (pyLower query.data)).head? = some v) :
    (analyze_query_terms (some a) query attempt none).geographical_context =
      some (String.mk v) := by
  apply analyze_geo_field
  show extractLocation (pyLower query.data) = some v
  unfold extractLocation locationMatches LOCATION_PATTERNS
  rcases hgl : findIter globalPat (pyLower query.data) with _ | ⟨x, xs⟩
  · rw [hgl] at hg; exact absurd hg (by simp)
  · rw [hgl] at hg
    simp only [List.head?_cons, Option.some.injEq] at hg
    subst hg
    simp only [List.map_cons, List.map_nil, List.flatten_cons, List.flatten_nil]
    rw [hgl]
    rfl

/-- Helper: the head of an `orderedInsert` is the inserted element when it
relates to the old head, and the old head otherwise. -/
theorem head?_orderedInsert {α : Type} (r : α → α → Prop) [DecidableRel r]
    (x : α) (s : List α) :
    (List.orderedInsert r x s).head? =
      some (match s.head? with
            | none => x
            | some h => if r x h then x else h) := by
  cases s with
  | nil => rfl
  | cons h t =>
    simp only [List.orderedInsert, List.head?_cons]
    split <;> rfl

/-- Helper: `firstLongest` yields `none` exactly on the empty list. -/
theorem firstLongest_eq_none_iff (l : List (String × List Char)) :
    firstLongest l = none ↔ l = [] := by
  cases l with
  | nil => simp [firstLongest]
  | cons x xs =>
    simp only [firstLongest]
    rcases firstLongest xs with _ | m <;> simp

/-- Helper: the head of the stable descending sort is the first element of
maximal value length. -/
theorem head?_pySortLenDesc (l : List (String × List Char)) :
    (pySortLenDesc l).head? = firstLongest l := by
  induction l with
  | nil => rfl
  | cons x xs ih =>
    have hcons : pySortLenDesc (x :: xs) =
        List.orderedInsert (fun a b => b.2.length ≤ a.2.length) x (pySortLenDesc xs) := rfl
    rw [hcons, head?_orderedInsert, ih]
    rcases hfl : firstLongest xs with _ | m
    · simp [firstLongest, hfl]
    · simp only [firstLongest, hfl]
      congr 1
      by_cases hc : m.2.length ≤ x.2.length
      · rw [if_pos hc, if_neg (by omega)]
      · rw [if_neg hc, if_pos (by omega)]

/-- Helper: the element `firstLongest` selects has maximal value length. -/
theorem firstLongest_is_max (l : List (String × List Char))
    (p : String × List Char) (hp : p ∈ l) :
    ∀ m, firstLongest l = some m → p.2.length ≤ m.2.length := by
  induction l with
  | nil => cases hp
  | cons x xs ih =>
    intro m hm
    rcases hfl : firstLongest xs with _ | m'
    · have hxs : xs = [] := (firstLongest_eq_none_iff xs).mp hfl
      subst hxs
      simp only [firstLongest] at hm
      rcases List.mem_singleton.mp hp with rfl
      simp only [Option.some.injEq] at hm
      subst hm
      exact le_refl _
    · simp only [firstLongest, hfl, Option.some.injEq] at hm
      subst hm
      rcases List.mem_cons.mp hp with rfl | hpxs
      · split <;> omega
      · have hle := ih hpxs m' hfl
        split <;> omega

/-- Claim C6 (confirmed).  When the temporal patterns match substrings of the
lower-cased query, `analyze_query_terms`'s extraction keeps the longest
matched substring, with ties broken by the first pattern in declared order:
the head of the stable descending sort equals `firstLongest` — the first
element of maximal length in declared-pattern-then-position order — so any
match is at most as long as the extracted one; in particular the query
`"sneakers for next season"` yields `"next season"` rather than any
shorter match such as `"next"`. -/
theorem C6_longest_match_wins (lowq : List Char) (ty : String) (m v : List Char)
    (hmem : (ty, m) ∈ temporalMatches lowq)
    (hv : extractTemporal lowq = some v) :
    extractTemporal lowq =
      (firstLongest (temporalMatches lowq)).map (fun x => x.2) ∧
    m.length ≤ v.length ∧
    extractTemporal "sneakers for next season".data = some "next season".data := by
  have hrefine : extractTemporal lowq =
      (firstLongest (temporalMatches lowq)).map (fun x => x.2) := by
    unfold extractTemporal
    rw [head?_pySortLenDesc]
  refine ⟨hrefine, ?_, by decide⟩
  rw [hrefine] at hv
  rcases hw : firstLongest (temporalMatches lowq) with _ | w
  · rw [hw] at hv; cases hv
  · rw [hw] at hv
    simp only [Option.map_some', Option.some.injEq] at hv
    have hmax := firstLongest_is_max _ _ hmem w hw
    simpa [hv] using hmax

/-- Claim C7 (counterexample).  The claim says that every temporal string
that is not a relative phrase and whose words contain no season name is
rejected with the standard message.  The empty string is such a string —
it is not a relative phrase and has no season word — yet
`validate_temporal` accepts it (`if not temporal: return True, ""`), so the
claim fails at `""`. -/
theorem C7_counterexample :
    validate_temporal 2025 6 "" = (true, "") ∧
    validate_temporal 2025 6 "" ≠ (false, temporalRejectMsg) ∧
    ¬(pyLower "".data = "next season".data ∨ pyLower "".data = "upcoming season".data ∨
      pyLower "".data = "future".data) ∧
    seasonWords.any (fun sn => (pySplit (pyLower "".data)).contains sn) = false := by
  exact ⟨rfl, by decide, by decide, rfl⟩

/-- Claim C7 (amended).  Every **non-empty** temporal string that is not one
of the relative phrases `"next season"`/`"upcoming season"`/`"future"`
(case-insensitively) and whose words contain no season name is rejected
with `(false, "Please provide a season (Spring, Summer, Fall, Winter) with
an optional year")`. -/
theorem C7_reject_without_season (year month : Nat) (t : String)
    (hne : t ≠ "")
    (hrel : ¬(pyLower t.data = "next season".data ∨
      pyLower t.data = "upcoming season".data ∨ pyLower t.data = "future".data))
    (hsn : seasonWords.any (fun sn => (pySplit (pyLower t.data)).contains sn) = false) :
    validate_temporal year month t = (false, temporalRejectMsg) := by
  simp only [validate_temporal, if_neg hne, if_neg hrel, hsn, Bool.false_and,
    Bool.false_eq_true, if_false]

/-- Claim C9 (confirmed).  For every temporal-context string containing
`"next season"`, `enrich_query_data` labels both generated temporal terms
with the **next** calendar year (`year + 1`) — even when the upcoming
season actually begins within the current calendar year (any month up to
November) — while `validate_temporal` resolves the relative phrase
`"next season"` to the upcoming season paired with the **current** year:
the two components disagree on the year label. -/
theorem C9_next_season_year_divergence (year month : Nat) (qc : Components)
    (t f : String) (catSvc : Except Unit CatJson) (j : EnrichedJson)
    (hf : truthy qc.focus_term = some f)
    (ht : qc.temporal_context = some t)
    (hns : containsSub "next season".data (pyLower t.data) = true) :
    (enrich_query_data year month catSvc (Except.ok j) (some qc)).map metaTemporalTerms =
      some [get_upcoming_season month ++ " " ++ natStr (year + 1),
            seasonMonth (get_upcoming_season month) ++ " " ++ natStr (year + 1)] ∧
    validate_temporal year month "next season" =
      (true, get_upcoming_season month ++ " " ++ natStr year) := by
  constructor
  · simp only [enrich_query_data, hf, ht, hns, if_true, Option.map_some', metaTemporalTerms]
  · rfl

/-! ## Support lemmas for the idempotence of `validate_temporal` (C8) -/

/-- The ten digit characters are decimal digits, are not whitespace, and
are fixed by `Char.toLower`. -/
theorem digitChar_props (m : Nat) (h : m < 10) :
    (Nat.digitChar m).isDigit = true ∧ (Nat.digitChar m).isWhitespace = false ∧
    (Nat.digitChar m).toLower = Nat.digitChar m := by
  interval_cases m <;> exact ⟨by decide, by decide, by decide⟩

/-- Every character `natStrCore` produces is a decimal digit character. -/
theorem natStrCore_chars : ∀ (fuel n : Nat) (acc : List Char),
    (∀ c ∈ acc, c.isDigit = true ∧ c.isWhitespace = false ∧ c.toLower = c) →
    ∀ c ∈ natStrCore fuel n acc,
      c.isDigit = true ∧ c.isWhitespace = false ∧ c.toLower = c := by
  intro fuel
  induction fuel with
  | zero => intro n acc hacc; exact hacc
  | succ fuel ih =>
    intro n acc hacc c hc
    simp only [natStrCore] at hc
    by_cases hn : n < 10
    · rw [if_pos hn] at hc
      rcases List.mem_cons.mp hc with rfl | hmem
      · exact digitChar_props n hn
      · exact hacc c hmem
    · rw [if_neg hn] at hc
      refine ih (n / 10) _ ?_ c hc
      intro d hd
      rcases List.mem_cons.mp hd with rfl | hmem
      · exact digitChar_props _ (Nat.mod_lt _ (by omega))
      · exact hacc d hmem

/-- Every character of `natStr n` is a decimal digit character. -/
theorem natStr_chars (n : Nat) :
    ∀ c ∈ (natStr n).data, c.isDigit = true ∧ c.isWhitespace = false ∧ c.toLower = c :=
  natStrCore_chars (n + 1) n [] (by intro c hc; cases hc)

/-- The function `natStrCore` never discards a non-empty accumulator. -/
theorem natStrCore_ne_nil : ∀ (fuel n : Nat) (acc : List Char),
    acc ≠ [] → natStrCore fuel n acc ≠ [] := by
  intro fuel
  induction fuel with
  | zero => intro n acc hacc; exact hacc
  | succ fuel ih =>
    intro n acc hacc
    simp only [natStrCore]
    by_cases hn : n < 10
    · rw [if_pos hn]; exact List.cons_ne_nil _ _
    · rw [if_neg hn]; exact ih (n / 10) _ (List.cons_ne_nil _ _)

/-- The decimal rendering of a natural number is non-empty. -/
theorem natStr_data_ne_nil (n : Nat) : (natStr n).data ≠ [] := by
  show natStrCore (n + 1) n [] ≠ []
  simp only [natStrCore]
  by_cases hn : n < 10
  · rw [if_pos hn]; exact List.cons_ne_nil _ _
  · rw [if_neg hn]; exact natStrCore_ne_nil n (n / 10) _ (List.cons_ne_nil _ _)

/-- The accumulator of `natStrCore` is a suffix that can be split off. -/
theorem natStrCore_acc : ∀ (fuel n : Nat) (acc : List Char),
    natStrCore fuel n acc = natStrCore fuel n [] ++ acc := by
  intro fuel
  induction fuel with
  | zero => intro n acc; rfl
  | succ fuel ih =>
    intro n acc
    simp only [natStrCore]
    by_cases hn : n < 10
    · rw [if_pos hn, if_pos hn]; rfl
    · rw [if_neg hn, if_neg hn, ih (n / 10) (Nat.digitChar (n % 10) :: acc),
        ih (n / 10) [Nat.digitChar (n % 10)], List.append_assoc]
      rfl

/-- The function `natStrCore` does not depend on the fuel once the fuel exceeds `n`. -/
theorem natStrCore_fuel : ∀ (fuel₁ fuel₂ n : Nat) (acc : List Char),
    n < fuel₁ → n < fuel₂ → natStrCore fuel₁ n acc = natStrCore fuel₂ n acc := by
  intro fuel₁
  induction fuel₁ with
  | zero => intro _ n _ h1 _; omega
  | succ f ih =>
    intro fuel₂ n acc h1 h2
    cases fuel₂ with
    | zero => omega
    | succ g =>
      simp only [natStrCore]
      by_cases hn : n < 10
      · rw [if_pos hn, if_pos hn]
      · rw [if_neg hn, if_neg hn]
        exact ih g (n / 10) _ (by omega) (by omega)

/-- One decimal digit step: for `n ≥ 10` the rendering of `n` is the
rendering of `n / 10` followed by the last digit. -/
theorem natStr_data_step (n : Nat) (h : 10 ≤ n) :
    (natStr n).data = (natStr (n / 10)).data ++ [Nat.digitChar (n % 10)] := by
  have h1 : natStrCore (n + 1) n [] =
      natStrCore n (n / 10) [Nat.digitChar (n % 10)] := by
    simp only [natStrCore]
    rw [if_neg (by omega)]
  show natStrCore (n + 1) n [] = natStrCore (n / 10 + 1) (n / 10) [] ++ _
  rw [h1, natStrCore_acc n (n / 10) _,
      natStrCore_fuel n (n / 10 + 1) (n / 10) [] (by omega) (by omega)]

/-- Single-digit rendering. -/
theorem natStr_data_small (n : Nat) (h : n < 10) :
    (natStr n).data = [Nat.digitChar n] := by
  show natStrCore (n + 1) n [] = _
  simp only [natStrCore]
  rw [if_pos h]

/-- A four-digit year renders to exactly four characters. -/
theorem natStr_len4 (y : Nat) (h1 : 1000 ≤ y) (h2 : y < 10000) :
    (natStr y).data.length = 4 := by
  rw [natStr_data_step y (by omega), natStr_data_step (y / 10) (by omega),
      natStr_data_step (y / 10 / 10) (by omega),
      natStr_data_small (y / 10 / 10 / 10) (by omega)]
  simp

/-- Splitting distributes over a space separator. -/
theorem pySplitAux_append_space (b : List Char) : ∀ (a acc : List Char),
    pySplitAux acc (a ++ ' ' :: b) = pySplitAux acc a ++ pySplitAux [] b := by
  intro a
  have hws : (' ' : Char).isWhitespace = true := by decide
  induction a with
  | nil =>
    intro acc
    simp only [List.nil_append, pySplitAux, hws, if_true]
    by_cases hacc : acc.isEmpty
    · rw [if_pos hacc, if_pos hacc]; rfl
    · rw [if_neg hacc, if_neg hacc]; rfl
  | cons c cs ih =>
    intro acc
    simp only [List.cons_append, pySplitAux]
    by_cases hwc : c.isWhitespace
    · rw [if_pos hwc, if_pos hwc]
      by_cases hacc : acc.isEmpty
      · rw [if_pos hacc, if_pos hacc]; exact ih []
      · rw [if_neg hacc, if_neg hacc]
        simp only [List.append_eq]
        rw [ih []]
        rfl
    · rw [if_neg hwc, if_neg hwc]; exact ih (c :: acc)

/-- Python `str.split()` distributes over a space separator. -/
theorem pySplit_append_space (a b : List Char) :
    pySplit (a ++ ' ' :: b) = pySplit a ++ pySplit b :=
  pySplitAux_append_space b a []

/-- Splitting a whitespace-free list yields the list itself (or nothing,
when everything is empty). -/
theorem pySplitAux_no_ws : ∀ (l acc : List Char),
    (∀ c ∈ l, c.isWhitespace = false) →
    pySplitAux acc l =
      if acc.reverse ++ l = [] then [] else [acc.reverse ++ l] := by
  intro l
  induction l with
  | nil =>
    intro acc _
    simp only [pySplitAux, List.append_nil]
    rcases acc with _ | ⟨a, as⟩
    · rfl
    · have h2 : (a :: as).reverse ≠ [] := by simp
      simp only [List.isEmpty_cons, Bool.false_eq_true, if_false, if_neg h2]
  | cons c cs ih =>
    intro acc h
    have hc : c.isWhitespace = false := h c (List.mem_cons_self c cs)
    simp only [pySplitAux, hc, Bool.false_eq_true, if_false]
    rw [ih (c :: acc) (fun d hd => h d (List.mem_cons_of_mem c hd))]
    have he : (c :: acc).reverse ++ cs = acc.reverse ++ c :: cs := by simp
    rw [he]

/-- Python `str.split()` of a non-empty whitespace-free list is the singleton. -/
theorem pySplit_no_ws (l : List Char) (h : ∀ c ∈ l, c.isWhitespace = false)
    (hne : l ≠ []) : pySplit l = [l] := by
  show pySplitAux [] l = [l]
  rw [pySplitAux_no_ws l [] h]
  simp [hne]

/-- The function `get_current_season` always yields one of the four season names. -/
theorem get_current_season_cases (month : Nat) :
    get_current_season month = "Winter" ∨ get_current_season month = "Spring" ∨
    get_current_season month = "Summer" ∨ get_current_season month = "Fall" := by
  unfold get_current_season
  split
  · exact Or.inl rfl
  · split
    · exact Or.inr (Or.inl rfl)
    · split
      · exact Or.inr (Or.inr (Or.inl rfl))
      · exact Or.inr (Or.inr (Or.inr rfl))

/-- The function `get_upcoming_season` always yields one of the four season names. -/
theorem get_upcoming_season_cases (month : Nat) :
    get_upcoming_season month = "Winter" ∨ get_upcoming_season month = "Spring" ∨
    get_upcoming_season month = "Summer" ∨ get_upcoming_season month = "Fall" := by
  rcases get_current_season_cases month with h | h | h | h <;>
    · unfold get_upcoming_season
      rw [h]
      decide

/-- Helper: lower-casing `s ++ " " ++ natStr y` splits as the lower-cased
data of `s`, a space, and the (lower-case-invariant) digits. -/
theorem pyLower_with_year (s : String) (y : Nat) :
    pyLower (s ++ " " ++ natStr y).data = pyLower s.data ++ ' ' :: (natStr y).data := by
  rw [String.data_append, String.data_append]
  show pyLower (s.data ++ [' '] ++ (natStr y).data) = _
  rw [pyLower, List.map_append, List.map_append]
  have h1 : ([' '].map Char.toLower) = [' '] := by decide
  have h2 : ((natStr y).data.map Char.toLower) = (natStr y).data := by
    conv_rhs => rw [← List.map_id ((natStr y).data)]
    exact List.map_congr_left (fun c hc => (natStr_chars y c hc).2.2)
  rw [h1, h2, List.append_assoc]
  rfl

/-- Helper: a string of the shape `s ++ " " ++ natStr year` with a season
word among the words of `s` and a four-digit `year` is accepted unchanged
by `validate_temporal`. -/
theorem validate_temporal_with_year (year month : Nat) (s : String)
    (hy1 : 1000 ≤ year) (hy2 : year < 10000)
    (hsn : seasonWords.any (fun sn => (pySplit (pyLower s.data)).contains sn) = true) :
    validate_temporal year month (s ++ " " ++ natStr year) =
      (true, s ++ " " ++ natStr year) := by
  have hlow := pyLower_with_year s year
  have hdata : (s ++ " " ++ natStr year).data = s.data ++ ' ' :: (natStr year).data := by
    rw [String.data_append, String.data_append, List.append_assoc]
    rfl
  have hne : (s ++ " " ++ natStr year) ≠ "" := by
    intro he
    have : (s ++ " " ++ natStr year).data = [] := by rw [he]
    rw [hdata] at this
    simp at this
  have hwords : pySplit (pyLower (s ++ " " ++ natStr year).data) =
      pySplit (pyLower s.data) ++ [(natStr year).data] := by
    rw [hlow, pySplit_append_space]
    rw [pySplit_no_ws ((natStr year).data)
      (fun c hc => (natStr_chars year c hc).2.1) (natStr_data_ne_nil year)]
  have hdig : ∃ c ∈ pyLower (s ++ " " ++ natStr year).data, c.isDigit = true := by
    rw [hlow]
    rcases List.exists_mem_of_ne_nil _ (natStr_data_ne_nil year) with ⟨c, hc⟩
    exact ⟨c, by simp [hc], (natStr_chars year c hc).1⟩
  have hrel : ¬(pyLower (s ++ " " ++ natStr year).data = "next season".data ∨
      pyLower (s ++ " " ++ natStr year).data = "upcoming season".data ∨
      pyLower (s ++ " " ++ natStr year).data = "future".data) := by
    rintro (he | he | he) <;>
      · rw [he] at hdig
        exact absurd hdig (by decide)
  have hseason : seasonWords.any
      (fun sn => (pySplit (pyLower (s ++ " " ++ natStr year).data)).contains sn) = true := by
    rw [hwords]
    rcases List.any_eq_true.mp hsn with ⟨sn, hmem, hcont⟩
    refine List.any_eq_true.mpr ⟨sn, hmem, ?_⟩
    exact List.elem_iff.mpr (List.mem_append_left _ (List.elem_iff.mp hcont))
  have hyear : (pySplit (pyLower (s ++ " " ++ natStr year).data)).any
      (fun w => pyIsDigit w && w.length = 4) = true := by
    rw [hwords]
    refine List.any_eq_true.mpr ⟨(natStr year).data, List.mem_append_right _ (by simp), ?_⟩
    have hd : pyIsDigit (natStr year).data = true := by
      rw [pyIsDigit, Bool.and_eq_true]
      refine ⟨?_, ?_⟩
      · simp [List.isEmpty_iff, natStr_data_ne_nil year]
      · exact List.all_eq_true.mpr (fun c hc => (natStr_chars year c hc).1)
    rw [hd, natStr_len4 year hy1 hy2]
    rfl
  simp only [validate_temporal, if_neg hne, if_neg hrel, hseason, hyear, Bool.and_self,
    if_true]

/-- Claim C8 (confirmed).  `validate_temporal` is idempotent on accepted
values: whenever it returns `(true, t)` for some input, re-validating `t`
at the same current date returns `(true, t)` again (stated for any
four-digit current year, which covers every date the program can run at
until the year 10000). -/
theorem C8_accepted_idempotent (year month : Nat) (s t : String)
    (hy1 : 1000 ≤ year) (hy2 : year < 10000)
    (h : validate_temporal year month s = (true, t)) :
    validate_temporal year month t = (true, t) := by
  by_cases hs0 : s = ""
  · subst hs0
    have h0 : validate_temporal year month "" = (true, "") := rfl
    rw [h0] at h
    simp only [Prod.mk.injEq, true_and] at h
    rw [← h]
    exact h0
  · simp only [validate_temporal, if_neg hs0] at h
    by_cases hrel : (pyLower s.data = "next season".data ∨
        pyLower s.data = "upcoming season".data ∨ pyLower s.data = "future".data)
    · rw [if_pos hrel] at h
      simp only [Prod.mk.injEq, true_and] at h
      rw [← h]
      apply validate_temporal_with_year year month _ hy1 hy2
      rcases get_upcoming_season_cases month with hu | hu | hu | hu <;> rw [hu] <;> decide
    · rw [if_neg hrel] at h
      by_cases hss : seasonWords.any
          (fun sn => (pySplit (pyLower s.data)).contains sn) = true
      · by_cases hyy : (pySplit (pyLower s.data)).any
            (fun w => pyIsDigit w && w.length = 4) = true
        · rw [hss, hyy] at h
          simp only [Bool.and_self, if_true] at h
          simp only [Prod.mk.injEq, true_and] at h
          rw [← h]
          simp only [validate_temporal, if_neg hs0, if_neg hrel, hss, hyy, Bool.and_self,
            if_true]
        · have hyy' : (pySplit (pyLower s.data)).any
              (fun w => pyIsDigit w && w.length = 4) = false :=
            Bool.eq_false_iff.mpr hyy
          rw [hss, hyy'] at h
          simp only [Bool.and_false, Bool.false_eq_true, if_false, if_true] at h
          simp only [Prod.mk.injEq, true_and] at h
          rw [← h]
          exact validate_temporal_with_year year month s hy1 hy2 hss
      · have hss' : seasonWords.any
            (fun sn => (pySplit (pyLower s.data)).contains sn) = false :=
          Bool.eq_false_iff.mpr hss
        rw [hss'] at h
        simp only [Bool.false_and, Bool.false_eq_true, if_false] at h
        simp only [Prod.mk.injEq, Bool.false_eq_true, false_and] at h

/-! ## Witnesses: the claim theorems applied at concrete inputs -/

/-- Witness for C2: at `sampleComponents` with a failing synonyms call the
enrichment is `none`, and with a failing category call it succeeds with
category `"general"`. -/
theorem C2_subcall_failures_witness :
    enrich_query_data 2025 4 (Except.ok { category := some "footwear" })
      (Except.error ()) (some sampleComponents) = none ∧
    (enrich_query_data 2025 4 (Except.error ()) (Except.ok sampleEnrichedJson)
      (some sampleComponents)).isSome = true ∧
    (enrich_query_data 2025 4 (Except.error ()) (Except.ok sampleEnrichedJson)
      (some sampleComponents)).map metaCategory = some "general" :=
  C2_subcall_failures 2025 4 sampleComponents "shoes"
    (Except.ok { category := some "footwear" }) sampleEnrichedJson (by decide)

/-- Witness for C3: at geography `"france"` the location terms are empty and
`"global"` does not occur in them. -/
theorem C3_location_terms_witness :
    (enrich_query_data 2025 4 (Except.ok { category := some "footwear" })
      (Except.ok sampleEnrichedJson) (some franceComponents)).map metaLocationTerms =
      some (if pyLowerS "france" = "global" then ["Europe", "North America", "Asia"]
            else if continentNames.contains (pyLowerS "france") then ["france"]
            else []) ∧
    "global" ∉ ((enrich_query_data 2025 4 (Except.ok { category := some "footwear" })
      (Except.ok sampleEnrichedJson) (some franceComponents)).map metaLocationTerms).getD [] :=
  C3_location_terms 2025 4 (Except.ok { category := some "footwear" }) sampleEnrichedJson
    franceComponents "shoes" "france" (by decide) rfl

/-- Witness for C5: a second-attempt analysis of `"x"` with an empty
completion answer receives all three defaults, and the scope stays absent
at attempts 2 and 1 alike. -/
theorem C5_attempt_defaults_witness :
    (analyze_query_terms (some {}) "x" 2 none).objective = some "trends" ∧
    (analyze_query_terms (some {}) "x" 2 none).geographical_context = some "global" ∧
    (analyze_query_terms (some {}) "x" 2 none).temporal_context = some "current" ∧
    (analyze_query_terms (some {}) "x" 2 none).scope = none ∧
    (analyze_query_terms (some {}) "x" 1 none).scope = none := by
  obtain ⟨h1, h2, h3, h4⟩ := C5_attempt_defaults {} "x" 2 1 none (by omega)
  exact ⟨h1 rfl, h2 (by decide), h3 (by decide), (h4 rfl).1, (h4 rfl).2⟩

/-- Witness for C6 at the query `"next season trends"`, whose first longest
temporal match is `"next season"`. -/
theorem C6_longest_match_wins_witness :
    extractTemporal "next season trends".data =
      (firstLongest (temporalMatches "next season trends".data)).map (fun x => x.2) ∧
    ("next season".data).length ≤ ("next season".data).length ∧
    extractTemporal "sneakers for next season".data = some "next season".data :=
  C6_longest_match_wins "next season trends".data "relative" "next season".data
    "next season".data (by decide) (by decide)

/-- Witness for C7: the non-empty, non-relative, season-free string
`"2024"` is rejected with the standard message. -/
theorem C7_reject_without_season_witness :
    validate_temporal 2025 1 "2024" = (false, temporalRejectMsg) :=
  C7_reject_without_season 2025 1 "2024" (by decide) (by decide) (by decide)

/-- Witness for C8: `"spring"` is accepted as `"spring 2025"` in June 2025,
and re-validating `"spring 2025"` returns it unchanged. -/
theorem C8_accepted_idempotent_witness :
    validate_temporal 2025 6 "spring 2025" = (true, "spring 2025") :=
  C8_accepted_idempotent 2025 6 "spring" "spring 2025" (by decide) (by decide) (by decide)

/-- Witness for C9: in April 2025 the enrichment of `"next season"` labels
both temporal terms with 2026, while `validate_temporal` resolves
`"next season"` to `"Summer 2025"`. -/
theorem C9_next_season_year_divergence_witness :
    (enrich_query_data 2025 4 (Except.ok { category := some "footwear" })
      (Except.ok sampleEnrichedJson) (some nextSeasonComponents)).map metaTemporalTerms =
      some [get_upcoming_season 4 ++ " " ++ natStr (2025 + 1),
            seasonMonth (get_upcoming_season 4) ++ " " ++ natStr (2025 + 1)] ∧
    validate_temporal 2025 4 "next season" =
      (true, get_upcoming_season 4 ++ " " ++ natStr 2025) :=
  C9_next_season_year_divergence 2025 4 nextSeasonComponents "next season" "shoes"
    (Except.ok { category := some "footwear" }) sampleEnrichedJson (by decide) rfl (by decide)

/-- Witness for C10: in `"europe shoes worldwide"` the continent name comes
first in the text, yet `"worldwide"` becomes the geographical context. -/
theorem C10_global_pattern_precedence_witness :
    (analyze_query_terms (some {}) "europe shoes worldwide" 1 none).geographical_context =
      some (String.mk "worldwide".data) :=
  C10_global_pattern_precedence {} "europe shoes worldwide" 1 "worldwide".data (by decide)

end QueryAgent
